import Mathlib

/-!
Verification development for the mythiq-assistant conversational engine.

The definitions below are a shallow embedding of the Python sources
`brain_advanced.py` and `memory_system.py`:

* Python `str` is modelled by `String`; Python's substring operator
  `needle in hay` is modelled by `strIn`, and `str.lower` by `toLowerStr`
  (ASCII lowercasing, which covers the whole lexicon).
* Python floats are modelled by `ℚ`; the scoring constants 0.1 … 1.0 of the
  source are exact decimal rationals.
* Python `dict`s (insertion ordered) are modelled by association lists
  `List (key × value)`; inserting a fresh key appends at the end, as in
  CPython.
* The TextBlob sentiment polarity is an external collaborator and is passed
  in as a rational parameter.
* `random.choice` is modelled by `choice` with an injectable natural index.
* `datetime.now()` is modelled by a natural-number `now` parameter.
-/

namespace Mythiq

/-- `startsWithSeq needle hay` : `needle` is a (contiguous) leading segment
of `hay`, character by character. -/
def startsWithSeq : List Char → List Char → Bool
  | [], _ => true
  | _ :: _, [] => false
  | a :: as, b :: bs => a == b && startsWithSeq as bs

/-- `containsSeq hay needle` : `needle` occurs contiguously inside `hay`.
This is the semantics of Python's `needle in hay` on strings. -/
def containsSeq (needle : List Char) : List Char → Bool
  | [] => needle.isEmpty
  | c :: t => startsWithSeq needle (c :: t) || containsSeq needle t

/-- Python `needle in hay` for strings. -/
def strIn (needle hay : String) : Bool :=
  containsSeq needle.toList hay.toList

/-- Python `str.lower` (ASCII). -/
def toLowerStr (s : String) : String :=
  String.mk (s.toList.map Char.toLower)

/-- Python `random.choice`, with the random source modelled as a natural
index `r`.  The lists this is applied to in the source are never empty, so
the `""` default is unreachable. -/
def choice (l : List String) (r : ℕ) : String :=
  l.getD (r % l.length) ""

/-- Python `max(items, key=lambda x: x[1])` over an association list:
the first entry with the maximal value wins ties, as in CPython. -/
def argmaxFirst : List (String × ℚ) → Option (String × ℚ)
  | [] => none
  | p :: t => some (t.foldl (fun best q => if q.2 > best.2 then q else best) p)

/-! ## Emotion engine (`SmartEmotionalEngine`, brain_advanced.py lines 69-199) -/

/-- One entry of `SmartEmotionalEngine.emotion_patterns`. -/
structure EmotionPattern where
  keywords : List String
  phrases : List String
  punctuation : List String
  intensity_words : List String

/-- `SmartEmotionalEngine.emotion_patterns`, in Python dict insertion order. -/
def emotionPatterns : List (String × EmotionPattern) :=
  [ ("excited",
      { keywords := ["amazing", "awesome", "great", "love", "fantastic", "wonderful", "yes", "perfect", "brilliant", "excellent"]
      , phrases := ["this is great", "i love this", "so excited", "can't wait", "that's awesome"]
      , punctuation := ["!", "!!!", "!!", "😊", "🎉", "🌟", "✨"]
      , intensity_words := ["so", "very", "extremely", "absolutely", "totally", "really"] })
  , ("frustrated",
      { keywords := ["stuck", "hard", "difficult", "can't", "impossible", "hate", "problem", "issue", "wrong", "broken"]
      , phrases := ["this is hard", "i can't", "not working", "so frustrated", "this sucks"]
      , punctuation := ["...", ":(", "😤", "😠", "💢"]
      , intensity_words := ["so", "very", "extremely", "really", "totally", "completely"] })
  , ("curious",
      { keywords := ["how", "what", "why", "when", "where", "explain", "tell me", "show me", "understand", "learn"]
      , phrases := ["how does", "what is", "can you explain", "i want to know", "help me understand"]
      , punctuation := ["?", "??", "🤔", "💭"]
      , intensity_words := ["really", "very", "quite", "exactly"] })
  , ("confident",
      { keywords := ["will", "can", "definitely", "sure", "absolutely", "certain", "know", "believe", "ready"]
      , phrases := ["i can do", "i will", "i'm sure", "definitely going to", "let's do this"]
      , punctuation := ["!", "💪", "🚀", "⚡"]
      , intensity_words := ["absolutely", "definitely", "completely", "totally"] })
  , ("uncertain",
      { keywords := ["maybe", "perhaps", "not sure", "don't know", "confused", "unsure", "might", "possibly", "think"]
      , phrases := ["not sure", "don't know", "maybe i", "perhaps we", "i think"]
      , punctuation := ["?", "...", "🤷", "😕"]
      , intensity_words := ["quite", "very", "really", "somewhat", "kinda"] })
  , ("creative",
      { keywords := ["idea", "create", "make", "build", "design", "imagine", "artistic", "innovative", "original"]
      , phrases := ["i have an idea", "let's create", "want to make", "thinking of", "what if"]
      , punctuation := ["!", "💡", "🎨", "✨", "🌟"]
      , intensity_words := ["really", "very", "quite", "extremely", "super"] })
  ]

/-- Layer-2 score of one emotion pattern against a message (lines 128-144).
Keyword/phrase/intensity matches are against the lowercased text, the
punctuation/emoji matches against the original text. -/
def emotionPatternScore (pat : EmotionPattern) (text : String) : ℚ :=
  let textLower := toLowerStr text
  let keywordMatches : ℚ := pat.keywords.countP (fun k => strIn k textLower)
  let phraseMatches : ℚ := pat.phrases.countP (fun p => strIn p textLower)
  let punctMatches : ℚ := pat.punctuation.countP (fun p => strIn p text)
  let intensityMatches : ℚ := pat.intensity_words.countP (fun w => strIn w textLower)
  (keywordMatches * (4/10) + phraseMatches * (7/10) + punctMatches * (3/10))
    * (1 + intensityMatches * (2/10))

/-- The `emotion_scores` dict after the layer-2 pattern loop (lines 125-147):
only emotions with a strictly positive score are candidates. -/
def patternEmotionScores (text : String) : List (String × ℚ) :=
  emotionPatterns.filterMap (fun ep =>
    let s := emotionPatternScore ep.2 text
    if s > 0 then some (ep.1, s) else none)

/-- Layer-3 sentiment fallback (lines 149-158): when no pattern scored, a
single candidate is seeded from the polarity thresholds. -/
def scoresWithFallback (text : String) (polarity : ℚ) : List (String × ℚ) :=
  let es := patternEmotionScores text
  if es.isEmpty then
    if polarity > 3/10 then [("excited", polarity)]
    else if polarity < -(3/10) then [("frustrated", |polarity|)]
    else if strIn "?" text then [("curious", 6/10)]
    else [("neutral", 1/2)]
  else es

/-- One pass of the layer-4 loop body (lines 163-165): the candidate matching
the remembered emotion `r` has its score multiplied by 1.1. -/
def boostOne (r : String) (scores : List (String × ℚ)) : List (String × ℚ) :=
  scores.map (fun p => if p.1 = r then (p.1, p.2 * (11/10)) else p)

/-- Layer-4 memory boost (lines 160-165): iterate the boost over the
remembered recent emotions. -/
def applyMemoryBoost (recent : List String) (scores : List (String × ℚ)) :
    List (String × ℚ) :=
  recent.foldl (fun sc r => boostOne r sc) scores

/-- The final `emotion_scores` of `analyze_emotion`: pattern scores with
fallback (layers 2-3), then the memory boost over the last two remembered
primary emotions (`self.emotional_memory[user_id][-2:]`, layer 4).
`mem` is the user's emotional-memory queue projected to primary emotions. -/
def emotionScoresFinal (text : String) (polarity : ℚ) (mem : List String) :
    List (String × ℚ) :=
  applyMemoryBoost (mem.drop (mem.length - 2)) (scoresWithFallback text polarity)

/-- The result triple of `analyze_emotion` (without timestamps). -/
structure EmotionResult where
  primary : String
  confidence : ℚ
  intensity : ℚ
deriving DecidableEq, Repr

/-- `SmartEmotionalEngine.analyze_emotion` (lines 115-190), pure core:
pick the maximal candidate, `confidence = min(score/2, 1)`,
`intensity = min(score/3, 1)`; the `else` branch (lines 172-175) is the
source's dead branch for an empty score dict. -/
def analyzeEmotionCore (text : String) (polarity : ℚ) (mem : List String) :
    EmotionResult :=
  match argmaxFirst (emotionScoresFinal text polarity mem) with
  | some (e, s) => { primary := e, confidence := min (s / 2) 1, intensity := min (s / 3) 1 }
  | none => { primary := "neutral", confidence := 6/10, intensity := 1/2 }

/-! ## Data model (brain_advanced.py lines 23-67) -/

/-- `EmotionalState` (lines 23-30); `context` is the unused default field. -/
structure EmotionalState where
  primary_emotion : String
  intensity : ℚ
  confidence : ℚ
  timestamp : ℕ
  context : String := ""
deriving DecidableEq, Repr

/-- `UserProfile` of brain_advanced.py (lines 32-48), with the post-init
defaults applied by the constructor. -/
structure UserProfile where
  user_id : String
  communication_style : String := "neutral"
  preferred_topics : List String := []
  emotional_patterns : List (String × ℚ) := []
  conversation_count : ℕ := 0
  last_interaction : ℕ
deriving DecidableEq, Repr

/-- `ConversationContext` (lines 50-67), post-init defaults applied. -/
structure ConversationContext where
  user_id : String
  session_id : String
  current_topic : String := "general"
  conversation_length : ℕ := 0
  recent_emotions : List String := []
  recent_intents : List String := []
  last_interaction : ℕ
deriving DecidableEq, Repr

/-! ## Intent classifier (`SmartIntentClassifier`, lines 293-399) -/

/-- One entry of `SmartIntentClassifier.intent_patterns`. -/
structure IntentPattern where
  primary_keywords : List String
  secondary_keywords : List String
  phrases : List String
  context_clues : List String
  weight : ℚ

/-- `SmartIntentClassifier.intent_patterns` (lines 298-334), dict order. -/
def intentPatterns : List (String × IntentPattern) :=
  [ ("game_request",
      { primary_keywords := ["game", "play", "level", "character", "adventure", "puzzle", "platformer", "rpg", "gaming"]
      , secondary_keywords := ["player", "gameplay", "mechanics", "story", "quest", "boss", "enemy", "weapon"]
      , phrases := ["create a game", "make a game", "game idea", "game development", "build a game", "design a game"]
      , context_clues := ["unity", "godot", "javascript", "html5", "mobile game", "indie game"]
      , weight := 1 })
  , ("media_request",
      { primary_keywords := ["image", "video", "picture", "create", "generate", "media", "visual", "art", "photo"]
      , secondary_keywords := ["design", "graphics", "animation", "illustration", "artwork", "drawing", "render"]
      , phrases := ["create an image", "make a video", "generate media", "visual content", "design something"]
      , context_clues := ["photoshop", "blender", "after effects", "premiere", "canvas", "digital art"]
      , weight := 1 })
  , ("help_request",
      { primary_keywords := ["help", "assist", "support", "guide", "explain", "how", "tutorial", "teach"]
      , secondary_keywords := ["instruction", "advice", "guidance", "learn", "understand", "show"]
      , phrases := ["can you help", "need help", "how do i", "please help", "show me how", "explain to me"]
      , context_clues := ["documentation", "manual", "guide", "tutorial", "example", "step by step"]
      , weight := 9/10 })
  , ("creative_brainstorm",
      { primary_keywords := ["idea", "brainstorm", "creative", "inspiration", "concept", "innovative", "original"]
      , secondary_keywords := ["unique", "artistic", "imaginative", "vision", "creativity", "design"]
      , phrases := ["need ideas", "brainstorm with me", "creative help", "inspire me", "what if"]
      , context_clues := ["creativity", "innovation", "design thinking", "ideation", "artistic"]
      , weight := 8/10 })
  , ("technical_question",
      { primary_keywords := ["code", "programming", "technical", "implementation", "algorithm", "function"]
      , secondary_keywords := ["method", "class", "variable", "syntax", "debug", "error"]
      , phrases := ["how to code", "programming help", "technical issue", "implementation", "coding problem"]
      , context_clues := ["python", "javascript", "api", "database", "framework", "library"]
      , weight := 9/10 })
  ]

/-- Layer-1 score of one intent pattern (lines 343-362); all matching is
against the lowercased text. -/
def intentPatternScore (pat : IntentPattern) (text : String) : ℚ :=
  let textLower := toLowerStr text
  let primaryMatches : ℚ := pat.primary_keywords.countP (fun k => strIn k textLower)
  let secondaryMatches : ℚ := pat.secondary_keywords.countP (fun k => strIn k textLower)
  let phraseMatches : ℚ := pat.phrases.countP (fun p => strIn p textLower)
  let contextMatches : ℚ := pat.context_clues.countP (fun c => strIn c textLower)
  (primaryMatches * (5/10) + secondaryMatches * (3/10) + phraseMatches * (8/10)
    + contextMatches * (4/10)) * pat.weight

/-- The `intent_scores` dict after the layer-1 loop (lines 339-365). -/
def patternIntentScores (text : String) : List (String × ℚ) :=
  intentPatterns.filterMap (fun ip =>
    let s := intentPatternScore ip.2 text
    if s > 0 then some (ip.1, s) else none)

/-- The `intent_relationships` table (lines 371-375). -/
def intentRelationships : List (String × List (String × ℚ)) :=
  [ ("game_request", [("technical_question", 2/10), ("creative_brainstorm", 1/10)])
  , ("media_request", [("creative_brainstorm", 2/10), ("technical_question", 1/10)])
  , ("help_request", [("technical_question", 3/10)]) ]

/-- Layer-2 context boost (lines 367-380): the most recent intent of the
context boosts its related intents, but only those already scored. -/
def applyContextBoost (recentIntents : List String) (scores : List (String × ℚ)) :
    List (String × ℚ) :=
  match recentIntents.getLast? with
  | none => scores
  | some recentIntent =>
    match intentRelationships.lookup recentIntent with
    | none => scores
    | some boosts =>
      boosts.foldl (fun sc rb =>
        sc.map (fun p => if p.1 = rb.1 then (p.1, p.2 + rb.2) else p)) scores

/-- Layer-3 question detection (lines 382-387): a "?" adds 0.2 to an already
scored "help_request", otherwise seeds it at 0.3 (a fresh dict key is
appended at the end). -/
def applyQuestionBoost (text : String) (scores : List (String × ℚ)) :
    List (String × ℚ) :=
  if strIn "?" text then
    if (scores.lookup "help_request").isSome then
      scores.map (fun p => if p.1 = "help_request" then (p.1, p.2 + 2/10) else p)
    else scores ++ [("help_request", 3/10)]
  else scores

/-- The `intent_scores` dict after all three layers of `classify_intent`. -/
def intentScoresFinal (text : String) (recentIntents : List String) :
    List (String × ℚ) :=
  applyQuestionBoost text (applyContextBoost recentIntents (patternIntentScores text))

/-- `SmartIntentClassifier.classify_intent` (lines 336-399). -/
def classifyIntent (text : String) (context : ConversationContext) : String × ℚ :=
  match argmaxFirst (intentScoresFinal text context.recent_intents) with
  | some (bestIntent, bestScore) =>
    let confidence := min bestScore 1
    if confidence < 3/10 then ("chat", 6/10) else (bestIntent, confidence)
  | none => ("chat", 6/10)

/-! ## Context manager (`SmartContextManager`, lines 201-291) -/

/-- The EWMA update of `profile.emotional_patterns` (lines 280-286): an
existing key is smoothed, a fresh key is seeded at the incoming intensity. -/
def updateEmotionalPattern (patterns : List (String × ℚ)) (emotion : String)
    (intensity : ℚ) : List (String × ℚ) :=
  match patterns.lookup emotion with
  | some old =>
    patterns.map (fun p =>
      if p.1 = emotion then (p.1, old * (8/10) + intensity * (2/10)) else p)
  | none => patterns ++ [(emotion, intensity)]

/-- The `emotional_patterns` dict of a fresh profile after `n` updates with
the same emotion at the same intensity (the claim-C6 scenario: the key is
new on the first update). -/
def ewmaTrace (e : String) (v : ℚ) : ℕ → List (String × ℚ)
  | 0 => []
  | n + 1 => updateEmotionalPattern (ewmaTrace e v n) e v

/-- The traced value of `emotional_patterns[e]` after `n` updates. -/
def ewmaVal (e : String) (v : ℚ) (n : ℕ) : ℚ :=
  ((ewmaTrace e v n).lookup e).getD 0

/-! ## Response engine (`SmartResponseEngine`, lines 401-552) -/

/-- The "greeting" bucket of `SmartResponseEngine.response_templates`
(lines 407-423). -/
def greetingTemplates : List (String × List String) :=
  [ ("excited",
          [ "Hello there! I'm Mythiq, and I'm absolutely thrilled to meet you! 🌟 I can sense your creative energy already. What amazing project shall we bring to life together?"
          , "Hey! Welcome to the creative zone! I'm Mythiq, your AI companion for turning wild ideas into reality. I'm buzzing with excitement to see what we'll create!"
          , "Greetings, creative soul! I'm Mythiq, and I live for moments like this - when someone new joins our innovation journey! What's sparking your imagination today?" ])
      , ("professional",
          [ "Hello! I'm Mythiq, your advanced AI assistant specializing in creative project development, game design, and media creation. How may I assist you today?"
          , "Good day! I'm Mythiq, here to help you transform ideas into reality through intelligent collaboration and creative problem-solving. What project are you working on?"
          , "Welcome! I'm Mythiq, your AI partner for creative and technical challenges. I'm equipped to help with games, media, and innovative solutions. How can I help?" ])
      , ("casual",
          [ "Hey there! I'm Mythiq, your friendly AI buddy for all things creative and cool. What's on your mind today?"
          , "Hi! Mythiq here, ready to dive into whatever awesome project you're thinking about. What's up?"
          , "Hello! I'm Mythiq, and I'm here to help make your ideas come alive. What are we working on?" ]) ]

/-- The "game_request" bucket of `response_templates` (lines 424-440). -/
def gameRequestTemplates : List (String × List String) :=
  [ ("excited",
          [ "YES! Game development is pure magic! 🎮 I can already feel the creative energy flowing. Tell me, what kind of gaming experience is calling to you? Epic adventures? Mind-bending puzzles? Something completely revolutionary?"
          , "Oh, this is fantastic! Creating games is like digital alchemy - turning imagination into interactive worlds! I'm absolutely buzzing to help you craft something special. What genre speaks to your creative soul?"
          , "Game creation time! This is where innovation happens! 🌟 I love how games can transport people to entirely new realities. What's your vision? Are you dreaming of platformers, RPGs, or perhaps something that's never been done before?" ])
      , ("professional",
          [ "Excellent choice in game development! I'd be delighted to assist you in creating a compelling gaming experience. To provide the most effective guidance, could you share your vision for the game's genre, target audience, and core mechanics?"
          , "Game development is a sophisticated blend of creativity and technical execution. I'm here to support you through the entire process, from concept to implementation. What type of game experience are you looking to create?"
          , "I appreciate your interest in game development. This field offers tremendous creative and technical opportunities. Let's start by defining your game's core concept and objectives. What's your initial vision?" ])
      , ("frustrated",
          [ "I can sense some challenges with your game idea, and that's completely normal in the creative process! 💙 Game development can feel overwhelming, but every amazing game started with someone feeling exactly like you do right now. Let's break this down into manageable pieces. What specific aspect is feeling most difficult?"
          , "Hey, I hear you. Game development can feel like climbing a mountain sometimes, but remember - every expert was once a beginner, and every masterpiece started with uncertainty. What's the biggest obstacle you're facing right now? Let's tackle it together."
          , "I can feel the challenge you're experiencing with your game project. Some of the most innovative games come from pushing through these tough creative moments. Let's simplify this - what's the core game idea you're excited about, even if the details feel overwhelming?" ]) ]

/-- The "media_request" bucket of `response_templates` (lines 441-452). -/
def mediaRequestTemplates : List (String × List String) :=
  [ ("creative",
          [ "Ooh, media creation! This is where artistry meets technology, and I absolutely love it! 🎨 Whether we're talking images, videos, or something entirely innovative, I'm here to help you craft something visually stunning. What's your creative vision?"
          , "Media creation is pure magic! There's something incredible about bringing visual ideas to life and touching people's hearts through imagery. I'm excited to explore the possibilities with you - are you thinking images, videos, animations, or maybe a combination?"
          , "Yes! Visual storytelling is one of humanity's most powerful forms of expression! I'm thrilled to help you create something that will captivate and inspire. What kind of media adventure are we embarking on?" ])
      , ("professional",
          [ "I'd be pleased to assist you with media creation. Visual content is a powerful communication tool, and I can help you develop effective strategies for your project. What type of media are you looking to create, and what's your intended purpose?"
          , "Media creation requires careful planning and execution. I'm equipped to help you through the conceptualization, planning, and creation process. Could you provide more details about your media project objectives?"
          , "Excellent choice in pursuing media creation. This field offers significant opportunities for impact and engagement. Let's discuss your project requirements and develop an effective approach. What's your vision?" ]) ]

/-- The "emotional_support" bucket of `response_templates` (lines 453-464). -/
def emotionalSupportTemplates : List (String × List String) :=
  [ ("frustrated",
          [ "I can sense some frustration in your message, and I want you to know that's completely normal and okay! 💙 Creative challenges are part of the journey, and they often lead to the most breakthrough moments. Let's tackle this together - what's feeling most overwhelming right now?"
          , "Hey, I hear you. Sometimes creative projects can feel like climbing a mountain, but remember - every expert was once a beginner, and every masterpiece started with someone feeling exactly like you do right now. What specific part is giving you trouble?"
          , "I can feel the challenge you're facing, and I want you to know you're not alone in this! Some of the most amazing creations come from pushing through these tough moments. Let's break this down into smaller, manageable pieces. What's the biggest obstacle right now?" ])
      , ("uncertain",
          [ "I can sense some uncertainty in your message, and that's perfectly okay! 🤗 Uncertainty often means you're on the verge of something new and exciting. I'm here to help you explore the possibilities. What's on your mind?"
          , "It sounds like you're in that thoughtful space where ideas are forming. That's actually a really creative place to be! I love helping people navigate through uncertainty to find clarity. What's got you thinking?"
          , "I can feel that you're processing something, and that's a beautiful part of the creative journey. Sometimes the best ideas come from those moments of 'what if' and 'maybe.' What direction are you leaning toward?" ]) ]

/-- The dict-of-dicts part of `SmartResponseEngine.response_templates`
(lines 406-464), in dict insertion order. -/
def responseTemplates : List (String × List (String × List String)) :=
  [ ("greeting", greetingTemplates)
  , ("game_request", gameRequestTemplates)
  , ("media_request", mediaRequestTemplates)
  , ("emotional_support", emotionalSupportTemplates) ]

/-- The flat `general_chat` entry of `response_templates` (lines 465-471). -/
def generalChatTemplates : List String :=
  [ "That's really interesting! I love how you're thinking about this. What aspect excites you most?"
  , "I appreciate you sharing that with me! Tell me more about what's driving this idea."
  , "That's a fascinating perspective! I'm curious to hear more about your thoughts on this."
  , "I can sense your engagement with this topic. What direction would you like to explore?"
  , "That's a great point! I'm interested in understanding more about your approach to this." ]

/-- `SmartResponseEngine._get_template_response` (lines 515-526): pick from
the requested style, fall back to the first style of the category, and for
an unknown category pick from `general_chat`. -/
def getTemplateResponse (category style : String) (r : ℕ) : String :=
  match responseTemplates.lookup category with
  | some styles =>
    match styles.lookup style with
    | some l => choice l r
    | none => choice ((styles.headD ("", [])).2) r
  | none => choice generalChatTemplates r

/-- `SmartResponseEngine._determine_style` (lines 502-513). -/
def determineStyle (_profile : UserProfile) (emotional_state : EmotionalState)
    (context : ConversationContext) : String :=
  if context.conversation_length > 5 then "professional"
  else if emotional_state.primary_emotion = "excited" then "excited"
  else if emotional_state.intensity > 7/10 then "excited"
  else "professional"

/-- `SmartResponseEngine._generate_contextual_response` (lines 528-552). -/
def generateContextualResponse (message : String)
    (emotional_state : EmotionalState) (_context : ConversationContext)
    (_profile : UserProfile) (r : ℕ) : String :=
  let messageLower := toLowerStr message
  if ["what", "how", "why", "when", "where"].any (fun w => strIn w messageLower) then
    "That's a great question! I love how curious you are. What specific aspect would you like to explore deeper?"
  else if ["i think", "i believe", "i want", "i need"].any (fun w => strIn w messageLower) then
    "I appreciate you sharing that with me! Your " ++ emotional_state.primary_emotion ++
      " energy about this is really engaging. Tell me more about what's driving this idea."
  else if ["problem", "issue", "trouble", "stuck"].any (fun w => strIn w messageLower) then
    "I hear you're facing a challenge, and I'm here to help you work through it! Let's break this down step by step. What's the core issue you're dealing with?"
  else
    choice
      [ "That's really interesting! I can sense your " ++ emotional_state.primary_emotion ++ " energy about this. What aspect excites you most?"
      , "I love how you're thinking about this! Your approach is exactly what creative projects need. What's the next step you're considering?"
      , "This conversation is fascinating! I'm getting a " ++ emotional_state.primary_emotion ++ " vibe from you, which tells me you're really engaged. What direction should we explore?" ] r

/-- The greeting trigger words of line 483. -/
def greetingWords : List String := ["hello", "hi", "hey", "greetings"]

/-- `SmartResponseEngine.generate_response` (lines 474-500), in explicit
state-passing form: each branch returns the produced text together with the
context and profile the source leaves behind (the source body contains no
assignment to either, so every branch passes them through). -/
def generateResponseSt (intent : String) (emotional_state : EmotionalState)
    (context : ConversationContext) (user_profile : UserProfile)
    (message : String) (r : ℕ) : String × ConversationContext × UserProfile :=
  let style := determineStyle user_profile emotional_state context
  if greetingWords.any (fun w => strIn w (toLowerStr message)) then
    (getTemplateResponse "greeting" style r, context, user_profile)
  else if intent = "game_request" ∨ intent = "media_request" then
    let emotionKey :=
      if emotional_state.primary_emotion = "excited" ∨
          emotional_state.primary_emotion = "frustrated" then
        emotional_state.primary_emotion
      else style
    (getTemplateResponse intent emotionKey r, context, user_profile)
  else if emotional_state.primary_emotion = "frustrated" ∨
      emotional_state.primary_emotion = "uncertain" then
    (getTemplateResponse "emotional_support" emotional_state.primary_emotion r,
      context, user_profile)
  else
    (generateContextualResponse message emotional_state context user_profile r,
      context, user_profile)

/-- The text produced by `generate_response`. -/
def generateResponse (intent : String) (emotional_state : EmotionalState)
    (context : ConversationContext) (user_profile : UserProfile)
    (message : String) (r : ℕ) : String :=
  (generateResponseSt intent emotional_state context user_profile message r).1

/-- All nine greeting template strings (the three styles flattened). -/
def greetingTemplatesAll : List String :=
  greetingTemplates.flatMap (fun sp => sp.2)

/-! ## Brain pipeline (`SmartLightweightBrain`, lines 554-645)

Python dict assignment `d[k] = v` replaces the value of an existing key in
place and appends a fresh key at the end; `dictSet` is that operation on
association lists. -/

/-- Python `d[k] = v` on an insertion-ordered dict. -/
def dictSet {α : Type} (l : List (String × α)) (k : String) (v : α) :
    List (String × α) :=
  if (l.lookup k).isSome then l.map (fun p => if p.1 = k then (k, v) else p)
  else l ++ [(k, v)]

/-- The mutable state of a `SmartLightweightBrain`: the emotional-memory
deques, the TinyDB profile table, the in-memory profile cache, the active
contexts, and the metrics dict. -/
structure BrainState where
  emotionalMemory : List (String × List EmotionalState) := []
  dbProfiles : List (String × UserProfile) := []
  userProfiles : List (String × UserProfile) := []
  activeContexts : List (String × ConversationContext) := []
  totalConversations : ℕ := 0
  successfulResponses : ℕ := 0
  averageConfidence : ℚ := 0
deriving Repr

/-- A fresh `ConversationContext(user_id, session_id)` with its post-init
defaults (`datetime.now()` modelled by `now`). -/
def newContext (uid sid : String) (now : ℕ) : ConversationContext :=
  { user_id := uid, session_id := sid, last_interaction := now }

/-- `SmartContextManager.save_profile` (lines 231-243): stamp
`last_interaction` and upsert into the database. -/
def saveProfile (db : List (String × UserProfile)) (profile : UserProfile)
    (now : ℕ) : UserProfile × List (String × UserProfile) :=
  let p := { profile with last_interaction := now }
  (p, dictSet db p.user_id p)

/-- `SmartContextManager.get_or_create_profile` (lines 209-229): cache hit,
else database hit, else construct a fresh profile and write it through. -/
def getOrCreateProfile (st : BrainState) (uid : String) (now : ℕ) :
    UserProfile × BrainState :=
  match st.userProfiles.lookup uid with
  | some p => (p, st)
  | none =>
    match st.dbProfiles.lookup uid with
    | some p => (p, { st with userProfiles := dictSet st.userProfiles uid p })
    | none =>
      let p0 : UserProfile := { user_id := uid, last_interaction := now }
      let (p, db) := saveProfile st.dbProfiles p0 now
      (p, { st with dbProfiles := db, userProfiles := dictSet st.userProfiles uid p })

/-- `SmartContextManager.update_context` (lines 245-291).  The source
mutates the context and profile objects held in `active_contexts` /
`user_profiles` in place; the embedding writes the updated records back. -/
def updateContext (st : BrainState) (uid sid _message intent : String)
    (emotional_state : EmotionalState) (now : ℕ) :
    ConversationContext × BrainState :=
  let key := uid ++ "_" ++ sid
  let st :=
    if (st.activeContexts.lookup key).isSome then st
    else { st with activeContexts := dictSet st.activeContexts key (newContext uid sid now) }
  let context := (st.activeContexts.lookup key).getD (newContext uid sid now)
  let (profile, st) := getOrCreateProfile st uid now
  let context :=
    { context with
        conversation_length := context.conversation_length + 1
        last_interaction := now
        current_topic := intent }
  let re := context.recent_emotions ++ [emotional_state.primary_emotion]
  let ri := context.recent_intents ++ [intent]
  let re := if re.length > 5 then re.drop (re.length - 5) else re
  let ri := if ri.length > 5 then ri.drop (ri.length - 5) else ri
  let context := { context with recent_emotions := re, recent_intents := ri }
  let profile :=
    { profile with
        conversation_count := profile.conversation_count + 1
        preferred_topics :=
          if intent ∈ profile.preferred_topics then profile.preferred_topics
          else profile.preferred_topics ++ [intent]
        emotional_patterns :=
          updateEmotionalPattern profile.emotional_patterns
            emotional_state.primary_emotion emotional_state.intensity }
  let (profile, db) := saveProfile st.dbProfiles profile now
  (context,
    { st with
        activeContexts := dictSet st.activeContexts key context
        userProfiles := dictSet st.userProfiles uid profile
        dbProfiles := db })

/-- `SmartEmotionalEngine.analyze_emotion` with its memory side effect
(lines 115-190): compute the state from the pure core, then push it onto
the user's `deque(maxlen=5)`. -/
def analyzeEmotion (st : BrainState) (text uid : String) (polarity : ℚ)
    (now : ℕ) : EmotionalState × BrainState :=
  let mem := (st.emotionalMemory.lookup uid).getD []
  let core := analyzeEmotionCore text polarity (mem.map (·.primary_emotion))
  let state : EmotionalState :=
    { primary_emotion := core.primary, intensity := core.intensity
    , confidence := core.confidence, timestamp := now }
  let mem := mem ++ [state]
  let mem := mem.drop (mem.length - 5)
  (state, { st with emotionalMemory := dictSet st.emotionalMemory uid mem })

/-- The result dict of `process_message` (lines 614-634), flattened. -/
structure ProcessResult where
  content : String
  intent : String
  confidence : ℚ
  emotionPrimary : String
  emotionIntensity : ℚ
  emotionConfidence : ℚ
  conversationLength : ℕ
  currentTopic : String
  userConversations : ℕ
  sessionId : String
deriving DecidableEq, Repr

/-- `SmartLightweightBrain.process_message` (lines 575-645), happy path (no
step of the embedding can fail, so the `except` fallback of lines 636-645
is unreachable).  `polarity` stands for the external TextBlob sentiment of
`message`, `r` for the random source. -/
def processMessage (st : BrainState) (message uid : String)
    (sid : Option String) (polarity : ℚ) (now : ℕ) (r : ℕ) :
    ProcessResult × BrainState :=
  let st := { st with totalConversations := st.totalConversations + 1 }
  let (_profileHandle, st) := getOrCreateProfile st uid now
  let (emotional_state, st) := analyzeEmotion st message uid polarity now
  let sessionId := sid.getD "default"
  let key := uid ++ "_" ++ sessionId
  let st :=
    if (st.activeContexts.lookup key).isSome then st
    else { st with activeContexts := dictSet st.activeContexts key (newContext uid sessionId now) }
  let context := (st.activeContexts.lookup key).getD (newContext uid sessionId now)
  let ic := classifyIntent message context
  let (context, st) := updateContext st uid sessionId message ic.1 emotional_state now
  -- the source's `user_profile` handle aliases the cached profile object and
  -- therefore observes the mutations `update_context` made to it
  let user_profile := (st.userProfiles.lookup uid).getD { user_id := uid, last_interaction := now }
  let content := generateResponse ic.1 emotional_state context user_profile message r
  let st :=
    { st with
        successfulResponses := st.successfulResponses + 1
        averageConfidence := st.averageConfidence * (9/10) + ic.2 * (1/10) }
  ({ content := content, intent := ic.1, confidence := ic.2
   , emotionPrimary := emotional_state.primary_emotion
   , emotionIntensity := emotional_state.intensity
   , emotionConfidence := emotional_state.confidence
   , conversationLength := context.conversation_length
   , currentTopic := context.current_topic
   , userConversations := user_profile.conversation_count
   , sessionId := sessionId }, st)

/-! ## Memory system (`MythiqMemorySystem`, memory_system.py)

Only the capacity policy (`get_or_create_user_profile`,
`_cleanup_old_users`, lines 137-149 and 344-360) is verified here.
ISO-format timestamp strings compare lexicographically in chronological
order, so timestamps are modelled by naturals. -/

/-- `memory_system.UserProfile` restricted to the fields the capacity
policy reads (`preferences`, `conversation_history` and
`personality_insights` are never consulted by it). -/
structure MemUserProfile where
  user_id : String
  name : Option String := none
  favorite_topics : List String := []
  interaction_count : ℕ := 0
  first_interaction : Option ℕ := none
  last_interaction : Option ℕ := none
deriving DecidableEq, Repr

/-- The sort key of `_cleanup_old_users` (line 350):
`x.last_interaction or x.first_interaction or "1970-01-01"`. -/
def memSortKey (p : MemUserProfile) : ℕ :=
  match p.last_interaction with
  | some t => t
  | none =>
    match p.first_interaction with
    | some t => t
    | none => 0

/-- `MythiqMemorySystem._cleanup_old_users` (lines 344-360): stable-sort the
tracked users by interaction timestamp ascending and keep the most recent
800 (`sorted_users[-800:]`). -/
def cleanupOldUsers (store : List (String × MemUserProfile)) :
    List (String × MemUserProfile) :=
  let sortedUsers := store.mergeSort (fun a b => memSortKey a.2 ≤ memSortKey b.2)
  sortedUsers.drop (sortedUsers.length - 800)

/-- `MythiqMemorySystem.get_or_create_user_profile` (lines 137-149) with
`max_total_users = 1000`: evict before admitting an unseen user once the
store is full. -/
def getOrCreateUserProfile (store : List (String × MemUserProfile))
    (uid : String) (now : ℕ) : List (String × MemUserProfile) :=
  if (store.lookup uid).isSome then store
  else
    let store := if store.length ≥ 1000 then cleanupOldUsers store else store
    dictSet store uid { user_id := uid, first_interaction := some now }

/-- A concrete store of 1000 tracked users with pairwise distinct
interaction timestamps, used to instantiate the eviction theorem. -/
def witnessStore : List (String × MemUserProfile) :=
  (List.range 1000).map (fun i =>
    ("u" ++ toString i, { user_id := "u" ++ toString i, last_interaction := some i }))

/-! ## Helper lemmas -/

/-- `List.lookup` on a cons cell, with the `BEq` test turned into `=`. -/
theorem lookup_cons_eq {β : Type} (a : String) (b : β) (t : List (String × β))
    (k : String) :
    ((a, b) :: t).lookup k = if k = a then some b else t.lookup k := by
  rw [List.lookup_cons]
  by_cases h : k = a
  · simp [h]
  · simp [beq_false_of_ne h, h]

/-- Looking a key up after updating the entries of another (or the same)
key in place. -/
theorem lookup_map_update {β : Type} (l : List (String × β)) (k r : String)
    (f : β → β) :
    (l.map (fun p => if p.1 = r then (p.1, f p.2) else p)).lookup k
      = if k = r then (l.lookup k).map f else l.lookup k := by
  induction l with
  | nil => simp
  | cons p t ih =>
    obtain ⟨a, b⟩ := p
    simp only [List.map_cons]
    by_cases har : a = r
    · subst har
      simp only [if_pos rfl]
      rw [lookup_cons_eq, lookup_cons_eq]
      by_cases hka : k = a
      · simp [hka]
      · simp [hka, ih]
    · simp only [if_neg har]
      rw [lookup_cons_eq, lookup_cons_eq]
      by_cases hka : k = a
      · subst hka
        rw [if_pos rfl, if_pos rfl, if_neg har]
      · rw [if_neg hka, if_neg hka, ih]

/-- The fold of the Python `max(..., key=...)` loop stays inside the list. -/
theorem foldl_max_mem (a : String × ℚ) (t : List (String × ℚ)) :
    t.foldl (fun best q => if q.2 > best.2 then q else best) a ∈ a :: t := by
  induction t generalizing a with
  | nil => simp
  | cons b t ih =>
    simp only [List.foldl_cons]
    by_cases hab : b.2 > a.2
    · rw [if_pos hab]
      rcases List.mem_cons.mp (ih b) with h | h
      · exact List.mem_cons.mpr (Or.inr (List.mem_cons.mpr (Or.inl h)))
      · exact List.mem_cons.mpr (Or.inr (List.mem_cons.mpr (Or.inr h)))
    · rw [if_neg hab]
      rcases List.mem_cons.mp (ih a) with h | h
      · exact List.mem_cons.mpr (Or.inl h)
      · exact List.mem_cons.mpr (Or.inr (List.mem_cons.mpr (Or.inr h)))

/-- `argmaxFirst` returns an element of its input. -/
theorem argmaxFirst_mem {l : List (String × ℚ)} {p : String × ℚ}
    (h : argmaxFirst l = some p) : p ∈ l := by
  cases l with
  | nil => simp [argmaxFirst] at h
  | cons a t =>
    simp only [argmaxFirst, Option.some.injEq] at h
    exact h ▸ foldl_max_mem a t

/-- `choice` picks an element of a nonempty list. -/
theorem choice_mem (l : List String) (r : ℕ) (h : l ≠ []) : choice l r ∈ l := by
  unfold choice
  have hlt : r % l.length < l.length := Nat.mod_lt _ (List.length_pos.mpr h)
  rw [List.getD_eq_getElem?_getD, List.getElem?_eq_getElem hlt]
  exact List.getElem_mem hlt

/-- In-place reset of a present dict key, read back. -/
theorem lookup_map_set_self {α : Type} (l : List (String × α)) (k : String)
    (v : α) (h : (l.lookup k).isSome) :
    (l.map (fun p => if p.1 = k then (k, v) else p)).lookup k = some v := by
  induction l with
  | nil => simp at h
  | cons p t ih =>
    obtain ⟨a, b⟩ := p
    rw [lookup_cons_eq] at h
    simp only [List.map_cons]
    by_cases hka : k = a
    · subst hka
      simp [lookup_cons_eq]
    · rw [if_neg hka] at h
      rw [if_neg (fun hh : a = k => hka hh.symm), lookup_cons_eq, if_neg hka]
      exact ih h

/-- Setting a dict key and reading it back. -/
theorem dictSet_lookup_self {α : Type} (l : List (String × α)) (k : String)
    (v : α) : (dictSet l k v).lookup k = some v := by
  unfold dictSet
  by_cases h : (l.lookup k).isSome
  · rw [if_pos h]
    exact lookup_map_set_self l k v h
  · rw [if_neg h, List.lookup_append, Option.not_isSome_iff_eq_none.mp h]
    simp

/-- The context-relationship fold leaves an empty score dict empty. -/
theorem boostFold_nil (bs : List (String × ℚ)) :
    bs.foldl (fun sc rb =>
      sc.map (fun p => if p.1 = rb.1 then (p.1, p.2 + rb.2) else p)) [] = [] := by
  induction bs with
  | nil => rfl
  | cons b t ih => simpa using ih

/-- Layer 2 of the intent classifier leaves an empty score dict empty. -/
theorem applyContextBoost_nil (recentIntents : List String) :
    applyContextBoost recentIntents [] = [] := by
  unfold applyContextBoost
  cases recentIntents.getLast? with
  | none => rfl
  | some ri =>
    cases h : intentRelationships.lookup ri <;> simp [h, boostFold_nil]

/-- Layer 1 of the intent classifier produces no candidate on the empty
message. -/
theorem patternIntentScores_empty : patternIntentScores "" = [] := by
  simp +decide [patternIntentScores, intentPatterns, intentPatternScore]

/-- On the empty message every intent layer yields nothing, so
`classify_intent` lands in its universal fallback. -/
theorem classifyIntent_empty (ctx : ConversationContext) :
    classifyIntent "" ctx = ("chat", 6/10) := by
  unfold classifyIntent intentScoresFinal
  rw [patternIntentScores_empty, applyContextBoost_nil]
  have h2 : strIn "?" "" = false := by decide
  unfold applyQuestionBoost
  rw [h2]
  rfl

/-- Profile lookup never touches the active contexts. -/
theorem getOrCreateProfile_activeContexts (st : BrainState) (uid : String)
    (now : ℕ) : (getOrCreateProfile st uid now).2.activeContexts = st.activeContexts := by
  unfold getOrCreateProfile
  cases st.userProfiles.lookup uid with
  | some p => rfl
  | none => cases st.dbProfiles.lookup uid with
    | some p => rfl
    | none => rfl

/-- Emotion analysis only touches the emotional memory. -/
theorem analyzeEmotion_activeContexts (st : BrainState) (text uid : String)
    (polarity : ℚ) (now : ℕ) :
    (analyzeEmotion st text uid polarity now).2.activeContexts = st.activeContexts := rfl

/-- `update_context` increments the stored turn counter of the addressed
context by exactly one (a missing context starts at zero). -/
theorem updateContext_length (st : BrainState) (uid sid message intent : String)
    (emotional_state : EmotionalState) (now : ℕ) :
    (updateContext st uid sid message intent emotional_state now).1.conversation_length
      = ((st.activeContexts.lookup (uid ++ "_" ++ sid)).map
          (fun c => c.conversation_length)).getD 0 + 1 := by
  unfold updateContext
  by_cases h : (st.activeContexts.lookup (uid ++ "_" ++ sid)).isSome
  · obtain ⟨c, hc⟩ := Option.isSome_iff_exists.mp h
    simp [hc]
  · have hn := Option.not_isSome_iff_eq_none.mp h
    simp [hn, dictSet_lookup_self, newContext]

/-- `process_message` on the empty message: no exception is modelled (the
function is total), the result is the low-confidence chat fallback, and the
turn counter of the addressed context is incremented by one. -/
theorem processMessage_empty (st : BrainState) (uid : String)
    (sid : Option String) (polarity : ℚ) (now r : ℕ) :
    (processMessage st "" uid sid polarity now r).1.intent = "chat"
    ∧ (processMessage st "" uid sid polarity now r).1.confidence = 6/10
    ∧ (processMessage st "" uid sid polarity now r).1.conversationLength
        = ((st.activeContexts.lookup (uid ++ "_" ++ sid.getD "default")).map
            (fun c => c.conversation_length)).getD 0 + 1 := by
  by_cases h : (st.activeContexts.lookup (uid ++ "_" ++ sid.getD "default")).isSome
  · simp [processMessage, classifyIntent_empty, updateContext_length,
      analyzeEmotion_activeContexts, getOrCreateProfile_activeContexts,
      apply_ite BrainState.activeContexts, h]
  · simp [processMessage, classifyIntent_empty, updateContext_length,
      analyzeEmotion_activeContexts, getOrCreateProfile_activeContexts,
      apply_ite BrainState.activeContexts, h, dictSet_lookup_self, newContext,
      Option.not_isSome_iff_eq_none.mp h]

/-- Every layer-2 emotion candidate has a strictly positive score. -/
theorem patternEmotionScores_pos (text : String) :
    ∀ p ∈ patternEmotionScores text, 0 < p.2 := by
  intro p hp
  simp only [patternEmotionScores, List.mem_filterMap] at hp
  obtain ⟨ep, -, heq⟩ := hp
  by_cases hs : emotionPatternScore ep.2 text > 0
  · rw [if_pos hs] at heq
    obtain rfl := Option.some.inj heq
    exact hs
  · rw [if_neg hs] at heq
    exact absurd heq (by simp)

/-- Every candidate after the sentiment fallback has a strictly positive
score. -/
theorem scoresWithFallback_pos (text : String) (polarity : ℚ) :
    ∀ p ∈ scoresWithFallback text polarity, 0 < p.2 := by
  intro p hp
  unfold scoresWithFallback at hp
  by_cases he : (patternEmotionScores text).isEmpty
  · rw [if_pos he] at hp
    by_cases h1 : polarity > 3/10
    · rw [if_pos h1] at hp
      obtain rfl := List.mem_singleton.mp hp
      linarith
    · rw [if_neg h1] at hp
      by_cases h2 : polarity < -(3/10)
      · rw [if_pos h2] at hp
        obtain rfl := List.mem_singleton.mp hp
        have : polarity ≠ 0 := by intro hz; rw [hz] at h2; linarith
        exact abs_pos.mpr this
      · rw [if_neg h2] at hp
        by_cases h3 : strIn "?" text
        · rw [if_pos h3] at hp
          obtain rfl := List.mem_singleton.mp hp
          norm_num
        · rw [if_neg h3] at hp
          obtain rfl := List.mem_singleton.mp hp
          norm_num
  · rw [if_neg he] at hp
    exact patternEmotionScores_pos text p hp

/-- The single-emotion memory boost preserves score positivity. -/
theorem boostOne_pos (r : String) (scores : List (String × ℚ))
    (hpos : ∀ p ∈ scores, 0 < p.2) : ∀ p ∈ boostOne r scores, 0 < p.2 := by
  intro p hp
  simp only [boostOne, List.mem_map] at hp
  obtain ⟨q, hq, heq⟩ := hp
  by_cases hqr : q.1 = r
  · rw [if_pos hqr] at heq
    subst heq
    exact mul_pos (hpos q hq) (by norm_num)
  · rw [if_neg hqr] at heq
    subst heq
    exact hpos q hq

/-- The whole memory-boost layer preserves score positivity. -/
theorem applyMemoryBoost_pos (recent : List String) (scores : List (String × ℚ))
    (hpos : ∀ p ∈ scores, 0 < p.2) : ∀ p ∈ applyMemoryBoost recent scores, 0 < p.2 := by
  induction recent generalizing scores with
  | nil => exact hpos
  | cons r t ih => exact ih (boostOne r scores) (boostOne_pos r scores hpos)

/-- Every final emotion candidate has a strictly positive score. -/
theorem emotionScoresFinal_pos (text : String) (polarity : ℚ) (mem : List String) :
    ∀ p ∈ emotionScoresFinal text polarity mem, 0 < p.2 :=
  applyMemoryBoost_pos _ _ (scoresWithFallback_pos text polarity)

/-- Every layer-1 intent candidate has a strictly positive score. -/
theorem patternIntentScores_pos (text : String) :
    ∀ p ∈ patternIntentScores text, 0 < p.2 := by
  intro p hp
  simp only [patternIntentScores, List.mem_filterMap] at hp
  obtain ⟨ip, -, heq⟩ := hp
  by_cases hs : intentPatternScore ip.2 text > 0
  · rw [if_pos hs] at heq
    obtain rfl := Option.some.inj heq
    exact hs
  · rw [if_neg hs] at heq
    exact absurd heq (by simp)

/-- All boosts in the relationship table are strictly positive. -/
theorem intentRelationships_pos :
    ∀ x ∈ intentRelationships, ∀ y ∈ x.2, (0:ℚ) < y.2 := by
  simp only [intentRelationships, List.forall_mem_cons, List.forall_mem_nil]
  norm_num

/-- A key of a `lookup` hit is an element of the association list. -/
theorem lookup_mem {α : Type} {l : List (String × α)} {k : String} {v : α}
    (h : l.lookup k = some v) : (k, v) ∈ l := by
  obtain ⟨l₁, l₂, rfl, -⟩ := List.lookup_eq_some_iff.mp h
  simp

/-- One relationship-boost pass preserves score positivity. -/
theorem boostStep_pos (rb : String × ℚ) (hrb : 0 < rb.2)
    (scores : List (String × ℚ)) (hpos : ∀ p ∈ scores, 0 < p.2) :
    ∀ p ∈ scores.map (fun p => if p.1 = rb.1 then (p.1, p.2 + rb.2) else p), 0 < p.2 := by
  intro p hp
  simp only [List.mem_map] at hp
  obtain ⟨q, hq, heq⟩ := hp
  by_cases hqr : q.1 = rb.1
  · rw [if_pos hqr] at heq
    subst heq
    exact add_pos (hpos q hq) hrb
  · rw [if_neg hqr] at heq
    subst heq
    exact hpos q hq

/-- The relationship-boost fold preserves score positivity. -/
theorem boostFold_pos (bs : List (String × ℚ)) (hbs : ∀ y ∈ bs, (0:ℚ) < y.2)
    (scores : List (String × ℚ)) (hpos : ∀ p ∈ scores, 0 < p.2) :
    ∀ p ∈ bs.foldl (fun sc rb =>
        sc.map (fun p => if p.1 = rb.1 then (p.1, p.2 + rb.2) else p)) scores,
      0 < p.2 := by
  induction bs generalizing scores with
  | nil => simpa using hpos
  | cons b t ih =>
    simp only [List.foldl_cons]
    exact ih (fun y hy => hbs y (by simp [hy])) _
      (boostStep_pos b (hbs b (by simp)) scores hpos)

/-- The context-relationship layer preserves score positivity. -/
theorem applyContextBoost_pos (recentIntents : List String)
    (scores : List (String × ℚ)) (hpos : ∀ p ∈ scores, 0 < p.2) :
    ∀ p ∈ applyContextBoost recentIntents scores, 0 < p.2 := by
  unfold applyContextBoost
  cases recentIntents.getLast? with
  | none => exact hpos
  | some ri =>
    cases hrel : intentRelationships.lookup ri with
    | none => simp only [hrel]; exact hpos
    | some bs =>
      simp only [hrel]
      exact boostFold_pos bs (intentRelationships_pos _ (lookup_mem hrel)) scores hpos

/-- The question-detection layer preserves score positivity. -/
theorem applyQuestionBoost_pos (text : String) (scores : List (String × ℚ))
    (hpos : ∀ p ∈ scores, 0 < p.2) :
    ∀ p ∈ applyQuestionBoost text scores, 0 < p.2 := by
  unfold applyQuestionBoost
  by_cases hq : strIn "?" text
  · rw [if_pos hq]
    by_cases hh : (scores.lookup "help_request").isSome
    · rw [if_pos hh]
      exact boostStep_pos ("help_request", 2/10) (by norm_num) scores hpos
    · rw [if_neg hh]
      intro p hp
      rcases List.mem_append.mp hp with h | h
      · exact hpos p h
      · obtain rfl := List.mem_singleton.mp h
        norm_num
  · rw [if_neg hq]
    exact hpos

/-- Every final intent candidate has a strictly positive score. -/
theorem intentScoresFinal_pos (text : String) (recentIntents : List String) :
    ∀ p ∈ intentScoresFinal text recentIntents, 0 < p.2 :=
  applyQuestionBoost_pos _ _
    (applyContextBoost_pos _ _ (patternIntentScores_pos text))

/-- Looking up one emotion after a single boost pass. -/
theorem boostOne_lookup (r : String) (scores : List (String × ℚ)) (e : String) :
    (boostOne r scores).lookup e
      = if e = r then (scores.lookup e).map (· * (11/10)) else scores.lookup e :=
  lookup_map_update scores e r (· * (11/10))

/-- Looking up one emotion after the whole memory-boost layer: the score is
multiplied by 1.1 once per occurrence of that emotion among the remembered
ones. -/
theorem applyMemoryBoost_lookup (recent : List String)
    (scores : List (String × ℚ)) (e : String) :
    (applyMemoryBoost recent scores).lookup e
      = (scores.lookup e).map (· * (11/10) ^ (recent.count e)) := by
  induction recent generalizing scores with
  | nil =>
    cases h : scores.lookup e <;> simp [applyMemoryBoost, h]
  | cons r t ih =>
    show (applyMemoryBoost t (boostOne r scores)).lookup e = _
    rw [ih, boostOne_lookup]
    by_cases he : e = r
    · subst he
      rw [if_pos rfl]
      cases h : scores.lookup e with
      | none => simp
      | some v =>
        simp only [List.count_cons_self, pow_succ, Option.map_map, Option.map_some']
        congr 1
        ring
    · rw [if_neg he]
      have : (r :: t).count e = t.count e := by
        simp [List.count_cons, he]
      rw [this]

/-- Resetting a present key to a value that does not depend on the old
one, read back. -/
theorem lookup_map_const_self {α : Type} (l : List (String × α)) (k : String)
    (c : α) (h : (l.lookup k).isSome) :
    (l.map (fun p => if p.1 = k then (p.1, c) else p)).lookup k = some c := by
  induction l with
  | nil => simp at h
  | cons p t ih =>
    obtain ⟨a, b⟩ := p
    rw [lookup_cons_eq] at h
    simp only [List.map_cons]
    by_cases hka : k = a
    · subst hka
      simp [lookup_cons_eq]
    · rw [if_neg hka] at h
      rw [if_neg (fun hh : a = k => hka hh.symm), lookup_cons_eq, if_neg hka]
      exact ih h

/-- After the first (seeding) update, repeating the same emotion at the
same intensity leaves `emotional_patterns[emotion]` unchanged at that
intensity: the EWMA trace is constant, not strictly increasing. -/
theorem ewmaTrace_lookup (e : String) (v : ℚ) (n : ℕ) (h : 1 ≤ n) :
    (ewmaTrace e v n).lookup e = some v := by
  induction n with
  | zero => omega
  | succ n ih =>
    by_cases hn : n = 0
    · subst hn
      show (updateEmotionalPattern [] e v).lookup e = some v
      simp [updateEmotionalPattern, lookup_cons_eq]
    · have hprev := ih (by omega)
      show (updateEmotionalPattern (ewmaTrace e v n) e v).lookup e = some v
      unfold updateEmotionalPattern
      rw [hprev]
      have hsome : ((ewmaTrace e v n).lookup e).isSome := by rw [hprev]; rfl
      rw [lookup_map_const_self _ _ _ hsome]
      congr 1
      ring

/-- The eviction sort order is transitive. -/
theorem evictLe_trans (a b c : String × MemUserProfile)
    (hab : (memSortKey a.2 ≤ memSortKey b.2 : Bool))
    (hbc : (memSortKey b.2 ≤ memSortKey c.2 : Bool)) :
    (memSortKey a.2 ≤ memSortKey c.2 : Bool) := by
  simp only [decide_eq_true_eq] at *
  omega

/-- The eviction sort order is total. -/
theorem evictLe_total (a b : String × MemUserProfile) :
    ((memSortKey a.2 ≤ memSortKey b.2 : Bool) || (memSortKey b.2 ≤ memSortKey a.2 : Bool)) := by
  rcases Nat.le_total (memSortKey a.2) (memSortKey b.2) with h | h <;> simp [h]

/-- The sorted user list is pairwise ordered by interaction timestamp. -/
theorem mergeSort_sorted_keys (store : List (String × MemUserProfile)) :
    (store.mergeSort (fun a b => memSortKey a.2 ≤ memSortKey b.2)).Pairwise
      (fun a b => memSortKey a.2 ≤ memSortKey b.2) := by
  have h := List.sorted_mergeSort evictLe_trans evictLe_total store
  exact h.imp (fun hab => by simpa using hab)

/-- C8: when 1000 users are already tracked, inserting the 1001st distinct
user id triggers eviction before admission: the users are stably sorted by
interaction timestamp ascending and split into the 200 oldest (evicted)
and the 800 most recent (kept); with pairwise distinct timestamps the
evicted set is exactly the 200 least-recently-interacted users, every one
of them strictly older than every kept user, and the new user is then
admitted. -/
theorem C8_eviction_policy (store : List (String × MemUserProfile))
    (uid : String) (now : ℕ)
    (hlen : store.length = 1000)
    (hfresh : store.lookup uid = none)
    (hdist : store.Pairwise (fun a b => memSortKey a.2 ≠ memSortKey b.2)) :
    ∃ evicted kept,
      store.mergeSort (fun a b => memSortKey a.2 ≤ memSortKey b.2)
          = evicted ++ kept
      ∧ evicted.length = 200 ∧ kept.length = 800
      ∧ (evicted ++ kept).Perm store
      ∧ getOrCreateUserProfile store uid now
          = kept ++ [(uid, { user_id := uid, first_interaction := some now })]
      ∧ ∀ e ∈ evicted, ∀ k ∈ kept, memSortKey e.2 < memSortKey k.2 := by
  have hslen : (store.mergeSort (fun a b => memSortKey a.2 ≤ memSortKey b.2)).length
      = 1000 := by
    rw [List.length_mergeSort, hlen]
  set sorted := store.mergeSort (fun a b => memSortKey a.2 ≤ memSortKey b.2)
    with hsorted
  have hperm : sorted.Perm store := List.mergeSort_perm store _
  refine ⟨sorted.take 200, sorted.drop 200,
    (List.take_append_drop 200 sorted).symm, ?_, ?_, ?_, ?_, ?_⟩
  · rw [List.length_take, hslen]
    omega
  · rw [List.length_drop, hslen]
  · rw [List.take_append_drop]
    exact hperm
  · have hkept_none : (sorted.drop 200).lookup uid = none := by
      rw [List.lookup_eq_none_iff]
      intro p hp
      exact (List.lookup_eq_none_iff.mp hfresh) p
        (hperm.mem_iff.mp (List.mem_of_mem_drop hp))
    unfold getOrCreateUserProfile
    rw [hfresh]
    have hge : store.length ≥ 1000 := by omega
    rw [if_neg (by simp), if_pos hge]
    unfold cleanupOldUsers dictSet
    dsimp only
    rw [hslen]
    have h200 : (1000:ℕ) - 800 = 200 := by norm_num
    rw [h200, hkept_none]
    simp
  · have hle : sorted.Pairwise (fun a b => memSortKey a.2 ≤ memSortKey b.2) :=
      mergeSort_sorted_keys store
    have hne : sorted.Pairwise (fun a b => memSortKey a.2 ≠ memSortKey b.2) :=
      (hperm.pairwise_iff (fun h => h.symm)).mpr hdist
    have hboth := hle.and hne
    rw [← List.take_append_drop 200 sorted] at hboth
    have h3 := (List.pairwise_append.mp hboth).2.2
    intro e he k hk
    obtain ⟨h1, h2⟩ := h3 e he k hk
    exact lt_of_le_of_ne h1 h2

/-- C8 witness: the eviction theorem instantiated at a concrete full store
of 1000 users and a fresh user id. -/
theorem C8_eviction_policy_witness :
    witnessStore.length = 1000
    ∧ witnessStore.lookup "zz" = none
    ∧ witnessStore.Pairwise (fun a b => memSortKey a.2 ≠ memSortKey b.2)
    ∧ ∃ evicted kept,
        witnessStore.mergeSort (fun a b => memSortKey a.2 ≤ memSortKey b.2)
            = evicted ++ kept
        ∧ evicted.length = 200 ∧ kept.length = 800
        ∧ (evicted ++ kept).Perm witnessStore
        ∧ getOrCreateUserProfile witnessStore "zz" 5000
            = kept ++ [("zz", { user_id := "zz", first_interaction := some 5000 })]
        ∧ ∀ e ∈ evicted, ∀ k ∈ kept, memSortKey e.2 < memSortKey k.2 := by
  have h1 : witnessStore.length = 1000 := by simp [witnessStore]
  have h2 : witnessStore.lookup "zz" = none := by
    rw [List.lookup_eq_none_iff]
    intro p hp
    simp only [witnessStore, List.mem_map] at hp
    obtain ⟨i, -, rfl⟩ := hp
    simp only [bne_iff_ne, ne_eq]
    intro h
    have := congrArg String.data h
    simp [String.data_append] at this
  have h3 : witnessStore.Pairwise (fun a b => memSortKey a.2 ≠ memSortKey b.2) := by
    unfold witnessStore
    rw [List.pairwise_map]
    exact (List.nodup_range 1000).imp (fun h => h)
  exact ⟨h1, h2, h3, C8_eviction_policy witnessStore "zz" 5000 h1 h2 h3⟩

/-- C1 counterexample: on the empty message string the brain does not take
an error path: starting from a fresh brain the returned intent is "chat",
not "error", and the context's turn counter is incremented to 1. -/
theorem C1_empty_message_counterexample :
    (processMessage {} "" "default" none 0 0 0).1.intent = "chat"
    ∧ (processMessage {} "" "default" none 0 0 0).1.intent ≠ "error"
    ∧ (processMessage {} "" "default" none 0 0 0).1.conversationLength = 1 := by
  obtain ⟨h1, h2, h3⟩ := processMessage_empty {} "default" none 0 0 0
  refine ⟨h1, by rw [h1]; decide, ?_⟩
  simpa using h3

/-- C1 (amended): for the empty message string `process_message` raises no
exception (the embedding is total) but there is no InputError path: the
message is processed normally, the result is the low-confidence chat
fallback (intent "chat", confidence 0.6), and the context's turn counter
IS incremented by one. -/
theorem C1_empty_message_amended (st : BrainState) (uid : String)
    (sid : Option String) (polarity : ℚ) (now r : ℕ) :
    (processMessage st "" uid sid polarity now r).1.intent = "chat"
    ∧ (processMessage st "" uid sid polarity now r).1.confidence = 6/10
    ∧ (processMessage st "" uid sid polarity now r).1.conversationLength
        = ((st.activeContexts.lookup (uid ++ "_" ++ sid.getD "default")).map
            (fun c => c.conversation_length)).getD 0 + 1 :=
  processMessage_empty st uid sid polarity now r

/-- C2 counterexample: on a message with no pattern candidate, zero
polarity and no question mark, the "neutral" fallback is seeded at score
0.5, so `analyze_emotion` returns confidence 0.25 and intensity 1/6 — not
confidence 0.5 and intensity 0.5 as claimed. -/
theorem C2_fallback_counterexample :
    analyzeEmotionCore "" 0 []
        = { primary := "neutral", confidence := 1/4, intensity := 1/6 }
    ∧ (analyzeEmotionCore "" 0 []).confidence ≠ 1/2
    ∧ (analyzeEmotionCore "" 0 []).intensity ≠ 1/2 := by
  have h : analyzeEmotionCore "" 0 []
      = { primary := "neutral", confidence := 1/4, intensity := 1/6 } := by
    simp +decide [analyzeEmotionCore, emotionScoresFinal, applyMemoryBoost,
      scoresWithFallback, patternEmotionScores, emotionPatterns,
      emotionPatternScore, argmaxFirst]
    norm_num
  refine ⟨h, ?_, ?_⟩ <;> rw [h] <;> norm_num

/-- C2 (amended): when no emotion obtains a positive pattern score (and no
emotional memory is present), the result is chosen by the polarity
thresholds — polarity > 0.3 gives "excited", polarity < -0.3 gives
"frustrated", otherwise a text containing "?" gives "curious" (confidence
0.3, intensity 0.2), and otherwise the result is "neutral" seeded at score
0.5, which yields confidence 0.25 and intensity 1/6. -/
theorem C2_fallback_amended (text : String) (polarity : ℚ)
    (h : patternEmotionScores text = []) :
    (polarity > 3/10 → (analyzeEmotionCore text polarity []).primary = "excited")
    ∧ (polarity < -(3/10) →
        (analyzeEmotionCore text polarity []).primary = "frustrated")
    ∧ (¬ polarity > 3/10 → ¬ polarity < -(3/10) → strIn "?" text = true →
        analyzeEmotionCore text polarity []
          = { primary := "curious", confidence := 3/10, intensity := 1/5 })
    ∧ (¬ polarity > 3/10 → ¬ polarity < -(3/10) → strIn "?" text = false →
        analyzeEmotionCore text polarity []
          = { primary := "neutral", confidence := 1/4, intensity := 1/6 }) := by
  have hbase : ∀ e s, emotionScoresFinal text polarity [] = [(e, s)] →
      analyzeEmotionCore text polarity []
        = { primary := e, confidence := min (s/2) 1, intensity := min (s/3) 1 } := by
    intro e s hs
    unfold analyzeEmotionCore
    rw [hs]
    rfl
  have hfal : ∀ l, scoresWithFallback text polarity = l →
      emotionScoresFinal text polarity [] = l := by
    intro l hl
    unfold emotionScoresFinal applyMemoryBoost
    simpa using hl
  unfold scoresWithFallback at hfal
  rw [h] at hfal
  simp only [List.isEmpty_nil, if_true] at hfal
  refine ⟨?_, ?_, ?_, ?_⟩
  · intro h1
    rw [hbase "excited" polarity (hfal _ (by rw [if_pos h1]))]
  · intro h2
    have h1 : ¬ polarity > 3/10 := by linarith
    rw [hbase "frustrated" |polarity| (hfal _ (by rw [if_neg h1, if_pos h2]))]
  · intro h1 h2 h3
    rw [hbase "curious" (6/10) (hfal _ (by rw [if_neg h1, if_neg h2, if_pos h3]))]
    have e1 : min ((6:ℚ)/10/2) 1 = 3/10 := by norm_num
    have e2 : min ((6:ℚ)/10/3) 1 = 1/5 := by norm_num
    rw [e1, e2]
  · intro h1 h2 h3
    rw [hbase "neutral" (1/2) (hfal _ (by rw [if_neg h1, if_neg h2, if_neg (by simp [h3])]))]
    have e1 : min ((1:ℚ)/2/2) 1 = 1/4 := by norm_num
    have e2 : min ((1:ℚ)/2/3) 1 = 1/6 := by norm_num
    rw [e1, e2]

/-- C2 witness: the amended fallback behaviour evaluated at the empty
message with zero polarity. -/
theorem C2_fallback_amended_witness :
    patternEmotionScores "" = []
    ∧ ((0:ℚ) > 3/10 → (analyzeEmotionCore "" 0 []).primary = "excited")
    ∧ ((0:ℚ) < -(3/10) → (analyzeEmotionCore "" 0 []).primary = "frustrated")
    ∧ (¬ (0:ℚ) > 3/10 → ¬ (0:ℚ) < -(3/10) → strIn "?" "" = true →
        analyzeEmotionCore "" 0 []
          = { primary := "curious", confidence := 3/10, intensity := 1/5 })
    ∧ (¬ (0:ℚ) > 3/10 → ¬ (0:ℚ) < -(3/10) → strIn "?" "" = false →
        analyzeEmotionCore "" 0 []
          = { primary := "neutral", confidence := 1/4, intensity := 1/6 }) := by
  have h : patternEmotionScores "" = [] := by
    simp +decide [patternEmotionScores, emotionPatterns, emotionPatternScore]
  exact ⟨h, C2_fallback_amended "" 0 h⟩

/-- C3: for every text containing "?", the question-detection layer of
`classify_intent` adds exactly 0.2 to help_request's score when
help_request is already a candidate (leaving every other intent's score
unchanged), and otherwise seeds help_request at score 0.3 (appended as a
fresh dict key). -/
theorem C3_question_boost (text : String) (recentIntents : List String)
    (h : strIn "?" text = true) :
    (∀ v, (applyContextBoost recentIntents (patternIntentScores text)).lookup
        "help_request" = some v →
      (intentScoresFinal text recentIntents).lookup "help_request" = some (v + 2/10)
      ∧ ∀ i, i ≠ "help_request" →
          (intentScoresFinal text recentIntents).lookup i
            = (applyContextBoost recentIntents (patternIntentScores text)).lookup i)
    ∧ ((applyContextBoost recentIntents (patternIntentScores text)).lookup
        "help_request" = none →
      intentScoresFinal text recentIntents
        = applyContextBoost recentIntents (patternIntentScores text)
            ++ [("help_request", 3/10)]) := by
  unfold intentScoresFinal applyQuestionBoost
  rw [h]
  constructor
  · intro v hv
    rw [if_pos rfl, if_pos (by rw [hv]; rfl)]
    constructor
    · have hmu := lookup_map_update
        (applyContextBoost recentIntents (patternIntentScores text))
        "help_request" "help_request" (fun x => x + 2/10)
      rw [if_pos rfl, hv] at hmu
      exact hmu
    · intro i hi
      have hmu := lookup_map_update
        (applyContextBoost recentIntents (patternIntentScores text))
        i "help_request" (fun x => x + 2/10)
      rw [if_neg hi] at hmu
      exact hmu
  · intro hnone
    rw [if_pos rfl, if_neg (by rw [hnone]; simp)]

/-- C3 witness: the bare question mark has no layer-1/2 candidates, so
help_request is seeded at 0.3. -/
theorem C3_question_boost_witness :
    strIn "?" "?" = true
    ∧ ((∀ v, (applyContextBoost [] (patternIntentScores "?")).lookup
          "help_request" = some v →
        (intentScoresFinal "?" []).lookup "help_request" = some (v + 2/10)
        ∧ ∀ i, i ≠ "help_request" →
            (intentScoresFinal "?" []).lookup i
              = (applyContextBoost [] (patternIntentScores "?")).lookup i)
      ∧ ((applyContextBoost [] (patternIntentScores "?")).lookup
          "help_request" = none →
        intentScoresFinal "?" []
          = applyContextBoost [] (patternIntentScores "?")
              ++ [("help_request", 3/10)])) :=
  ⟨by decide, C3_question_boost "?" [] (by decide)⟩

/-- C4: `classify_intent` returns ("chat", 0.6) whenever there is no
candidate intent or the maximal raw score is below 0.3 (the clamp
`min(score, 1)` cannot mask this, since 0.3 ≤ 1), and otherwise returns
the first maximal-scoring intent with confidence `min(score, 1)`; in
particular the empty string falls through to ("chat", 0.6) in every
context. -/
theorem C4_low_confidence_fallback (text : String) (ctx : ConversationContext) :
    classifyIntent text ctx
      = (match argmaxFirst (intentScoresFinal text ctx.recent_intents) with
         | none => ("chat", 6/10)
         | some (i, s) => if s < 3/10 then ("chat", 6/10) else (i, min s 1))
    ∧ classifyIntent "" ctx = ("chat", 6/10) := by
  refine ⟨?_, classifyIntent_empty ctx⟩
  unfold classifyIntent
  cases hm : argmaxFirst (intentScoresFinal text ctx.recent_intents) with
  | none => rfl
  | some p =>
    obtain ⟨i, s⟩ := p
    dsimp only
    have hiff : min s 1 < 3/10 ↔ s < 3/10 := by
      rw [min_lt_iff]
      constructor
      · rintro (hs | h1)
        · exact hs
        · linarith
      · exact Or.inl
    by_cases hc : s < 3/10
    · rw [if_pos (hiff.mpr hc), if_pos hc]
    · rw [if_neg (fun hh => hc (hiff.mp hh)), if_neg hc]

/-- C5: for every input text, polarity, emotional memory and context, the
confidence and intensity returned by `analyze_emotion` and the confidence
returned by `classify_intent` lie within [0, 1]. -/
theorem C5_confidence_intensity_bounds (text : String) (polarity : ℚ)
    (mem : List String) (ctx : ConversationContext) :
    0 ≤ (analyzeEmotionCore text polarity mem).confidence
    ∧ (analyzeEmotionCore text polarity mem).confidence ≤ 1
    ∧ 0 ≤ (analyzeEmotionCore text polarity mem).intensity
    ∧ (analyzeEmotionCore text polarity mem).intensity ≤ 1
    ∧ 0 ≤ (classifyIntent text ctx).2 ∧ (classifyIntent text ctx).2 ≤ 1 := by
  have hemo : 0 ≤ (analyzeEmotionCore text polarity mem).confidence
      ∧ (analyzeEmotionCore text polarity mem).confidence ≤ 1
      ∧ 0 ≤ (analyzeEmotionCore text polarity mem).intensity
      ∧ (analyzeEmotionCore text polarity mem).intensity ≤ 1 := by
    unfold analyzeEmotionCore
    cases hm : argmaxFirst (emotionScoresFinal text polarity mem) with
    | none =>
      refine ⟨by norm_num, by norm_num, by norm_num, by norm_num⟩
    | some p =>
      obtain ⟨e, s⟩ := p
      have hs : 0 < s := emotionScoresFinal_pos text polarity mem _ (argmaxFirst_mem hm)
      dsimp only
      refine ⟨le_min (by linarith) (by norm_num), min_le_right _ _,
        le_min (by linarith) (by norm_num), min_le_right _ _⟩
  have hint : 0 ≤ (classifyIntent text ctx).2 ∧ (classifyIntent text ctx).2 ≤ 1 := by
    unfold classifyIntent
    cases hm : argmaxFirst (intentScoresFinal text ctx.recent_intents) with
    | none => exact ⟨by norm_num, by norm_num⟩
    | some p =>
      obtain ⟨i, s⟩ := p
      have hs : 0 < s :=
        intentScoresFinal_pos text ctx.recent_intents _ (argmaxFirst_mem hm)
      dsimp only
      by_cases hc : min s 1 < 3/10
      · rw [if_pos hc]
        exact ⟨by norm_num, by norm_num⟩
      · rw [if_neg hc]
        exact ⟨le_min (by linarith) (by norm_num), min_le_right _ _⟩
  exact ⟨hemo.1, hemo.2.1, hemo.2.2.1, hemo.2.2.2, hint.1, hint.2⟩

/-- C6 counterexample: with a constant incoming intensity the EWMA update
seeded to that intensity leaves `emotional_patterns[emotion]` constant, so
the sequence of values is NOT strictly increasing: the value after the
first and after the second update are both equal to the intensity. -/
theorem C6_ewma_counterexample :
    ewmaVal "excited" (1/2) 1 = 1/2
    ∧ ewmaVal "excited" (1/2) 2 = 1/2
    ∧ ¬ ewmaVal "excited" (1/2) 1 < ewmaVal "excited" (1/2) 2 := by
  have h1 : ewmaVal "excited" (1/2) 1 = 1/2 := by
    rw [ewmaVal, ewmaTrace_lookup _ _ 1 (by norm_num)]
    rfl
  have h2 : ewmaVal "excited" (1/2) 2 = 1/2 := by
    rw [ewmaVal, ewmaTrace_lookup _ _ 2 (by norm_num)]
    rfl
  exact ⟨h1, h2, by rw [h1, h2]; exact lt_irrefl _⟩

/-- C6 (amended): for a user sending the same emotion repeatedly at
constant intensity, `emotional_patterns[emotion]` is seeded to the
incoming intensity on the first update and the EWMA
`new = old*0.8 + intensity*0.2` then leaves it constant at that intensity:
the sequence is non-decreasing (each step is an equality), bounded above
by the intensity, and already equal to its limit — but it is not strictly
increasing. -/
theorem C6_ewma_amended (e : String) (v : ℚ) (n : ℕ) (h : 1 ≤ n) :
    (ewmaTrace e v n).lookup e = some v
    ∧ ewmaVal e v n = v
    ∧ ewmaVal e v (n + 1) = ewmaVal e v n
    ∧ ewmaVal e v n ≤ v := by
  have hn := ewmaTrace_lookup e v n h
  have hsucc := ewmaTrace_lookup e v (n + 1) (by omega)
  have hv : ewmaVal e v n = v := by rw [ewmaVal, hn]; rfl
  have hv2 : ewmaVal e v (n + 1) = v := by rw [ewmaVal, hsucc]; rfl
  exact ⟨hn, hv, by rw [hv, hv2], le_of_eq hv⟩

/-- C6 witness: the amended EWMA behaviour evaluated after three updates
of "excited" at intensity 1/2. -/
theorem C6_ewma_amended_witness :
    1 ≤ 3
    ∧ ((ewmaTrace "excited" (1/2) 3).lookup "excited" = some (1/2)
      ∧ ewmaVal "excited" (1/2) 3 = 1/2
      ∧ ewmaVal "excited" (1/2) (3 + 1) = ewmaVal "excited" (1/2) 3
      ∧ ewmaVal "excited" (1/2) 3 ≤ 1/2) :=
  ⟨by norm_num, C6_ewma_amended "excited" (1/2) 3 (by norm_num)⟩

/-- C7 counterexample: when the last two remembered emotions are the same,
a matching candidate's score is multiplied by 1.1 twice (giving 1.21×),
not by a single 1.1 multiplier: for the message "amazing" with memory
["excited", "excited"] the excited score 0.4 becomes 0.484 ≠ 0.44. -/
theorem C7_memory_boost_counterexample :
    (scoresWithFallback "amazing" 0).lookup "excited" = some (2/5)
    ∧ (emotionScoresFinal "amazing" 0 ["excited", "excited"]).lookup "excited"
        = some (121/250)
    ∧ (121/250 : ℚ) ≠ (2/5) * (11/10) := by
  have hl : scoresWithFallback "amazing" 0 = [("excited", 2/5)] := by
    simp +decide [scoresWithFallback, patternEmotionScores, emotionPatterns,
      emotionPatternScore]
    norm_num
  have hlook : (scoresWithFallback "amazing" 0).lookup "excited" = some (2/5) := by
    rw [hl, lookup_cons_eq, if_pos rfl]
  refine ⟨hlook, ?_, by norm_num⟩
  unfold emotionScoresFinal
  rw [applyMemoryBoost_lookup, hlook]
  have hc : ((["excited", "excited"] : List String).drop
      ((["excited", "excited"] : List String).length - 2)).count "excited" = 2 := by
    decide
  rw [hc]
  norm_num

/-- C7 (amended): every candidate emotion has its score multiplied by 1.1
once PER matching entry among the last two remembered emotions (so a
candidate matching both entries is multiplied by 1.21); a single 1.1
multiplier only applies when exactly one remembered entry matches. -/
theorem C7_memory_boost_amended (text : String) (polarity : ℚ)
    (mem : List String) (e : String) (v : ℚ)
    (h : (scoresWithFallback text polarity).lookup e = some v) :
    (emotionScoresFinal text polarity mem).lookup e
      = some (v * (11/10) ^ ((mem.drop (mem.length - 2)).count e)) := by
  unfold emotionScoresFinal
  rw [applyMemoryBoost_lookup, h]
  rfl

/-- C7 witness: the amended multiplier law evaluated at the message
"amazing" with memory ["excited", "excited"]. -/
theorem C7_memory_boost_amended_witness :
    (scoresWithFallback "amazing" 0).lookup "excited" = some (2/5)
    ∧ (emotionScoresFinal "amazing" 0 ["excited", "excited"]).lookup "excited"
        = some ((2/5) * (11/10) ^ (((["excited", "excited"] : List String).drop
            ((["excited", "excited"] : List String).length - 2)).count "excited")) := by
  have hl : scoresWithFallback "amazing" 0 = [("excited", 2/5)] := by
    simp +decide [scoresWithFallback, patternEmotionScores, emotionPatterns,
      emotionPatternScore]
    norm_num
  have hlook : (scoresWithFallback "amazing" 0).lookup "excited" = some (2/5) := by
    rw [hl, lookup_cons_eq, if_pos rfl]
  exact ⟨hlook, C7_memory_boost_amended "amazing" 0 ["excited", "excited"]
    "excited" (2/5) hlook⟩

/-- C9: response composition is pure with respect to state — for every
intent, emotional state, context, profile and message, `generate_response`
reads but never mutates the context or the profile: both leave the call
exactly as they entered it, in every branch. -/
theorem C9_generate_response_pure (intent : String)
    (emotional_state : EmotionalState) (context : ConversationContext)
    (user_profile : UserProfile) (message : String) (r : ℕ) :
    (generateResponseSt intent emotional_state context user_profile message r).2.1
        = context
    ∧ (generateResponseSt intent emotional_state context user_profile message r).2.2
        = user_profile := by
  unfold generateResponseSt
  constructor <;> dsimp only <;> split_ifs <;> rfl

/-- The template picker on the "greeting" category always lands inside the
nine greeting templates, whatever the requested style and random index. -/
theorem getTemplateResponse_greeting_mem (style : String) (r : ℕ) :
    getTemplateResponse "greeting" style r ∈ greetingTemplatesAll := by
  unfold getTemplateResponse
  rw [show responseTemplates.lookup "greeting" = some greetingTemplates from by
    simp [responseTemplates, lookup_cons_eq]]
  dsimp only
  have hne : ∀ sp ∈ greetingTemplates, sp.2 ≠ [] := by
    intro sp hsp
    fin_cases hsp <;> simp
  cases h : greetingTemplates.lookup style with
  | some l =>
    have hmem : (style, l) ∈ greetingTemplates := lookup_mem h
    exact List.mem_flatMap.mpr ⟨(style, l), hmem, choice_mem l r (hne _ hmem)⟩
  | none =>
    refine List.mem_flatMap.mpr ⟨greetingTemplates.headD ("", []),
      by simp [greetingTemplates], choice_mem _ r ?_⟩
    simp [greetingTemplates]

/-- C10: greeting detection uses substring containment, not whole-word
matching: whenever one of "hello", "hi", "hey", "greetings" occurs as a
substring of the lowercased message (for example "hi" inside "this"),
`generate_response` returns one of the nine greeting templates, whatever
intent was classified and whatever emotion was detected. -/
theorem C10_greeting_substring (intent : String)
    (emotional_state : EmotionalState) (context : ConversationContext)
    (user_profile : UserProfile) (message : String) (r : ℕ)
    (h : greetingWords.any (fun w => strIn w (toLowerStr message)) = true) :
    generateResponse intent emotional_state context user_profile message r
      ∈ greetingTemplatesAll := by
  unfold generateResponse generateResponseSt
  rw [h]
  exact getTemplateResponse_greeting_mem _ r

/-- C10 witness: the message "this" contains no greeting word but does
contain "hi" as a substring, and is answered with a greeting template even
for intent "chat" and emotion "neutral". -/
theorem C10_greeting_substring_witness :
    greetingWords.any (fun w => strIn w (toLowerStr "this")) = true
    ∧ generateResponse "chat"
        { primary_emotion := "neutral", intensity := 0, confidence := 0, timestamp := 0 }
        (newContext "u" "s" 0)
        { user_id := "u", last_interaction := 0 } "this" 0
      ∈ greetingTemplatesAll :=
  ⟨by decide, C10_greeting_substring "chat"
    { primary_emotion := "neutral", intensity := 0, confidence := 0, timestamp := 0 }
    (newContext "u" "s" 0)
    { user_id := "u", last_interaction := 0 } "this" 0 (by decide)⟩

end Mythiq
